import Mathlib

/-!
Verification of the rio N-Triples parser (`src/turtle/src/ntriples.rs`) and the
abbreviating RDF/XML serializer (`src/xml/src/abbrev_formatter.rs`).

The parser is embedded over a pure one-lookahead byte source: the source state
is the list of not-yet-consumed bytes, `curr` returns the current byte (`none`
is the end-of-input sentinel) and `consume` advances past it.  Fallible parsing
functions return `Except`.  The serializer's underlying tag writer is embedded
as the list of emitted tag events, in emission order.
-/

deriving instance DecidableEq for Except

namespace RioNt

/-- Modelled from the spec (§4.1 lookahead byte source): `current()` is the
next unconsumed byte, or an explicit end-of-input sentinel (`none`) distinct
from every byte value. -/
def curr (s : List Nat) : Option Nat := s.head?

/-- Modelled from the spec (§4.1 lookahead byte source): `consume()` advances
past the current byte. -/
def consume (s : List Nat) : List Nat := s.tail

/-- Modelled from the spec (§7): every grammar violation is a syntax error.
The 1-based line number carried by the real error lives in the byte source and
is not modelled. -/
inductive TurtleError where
  | syntaxError
deriving DecidableEq

/-- Embeds rio_api's `NamedNode` as consumed by `ntriples.rs`; the decoded
identifier text is kept as a list of code points. -/
structure NamedNode where
  iri : List Nat
deriving DecidableEq

/-- Embeds rio_api's `BlankNode`. -/
structure BlankNode where
  id : List Nat
deriving DecidableEq

/-- Embeds rio_api's `Literal`: a tagged union of the three literal forms. -/
inductive Literal where
  | Simple (value : List Nat)
  | LanguageTaggedString (value : List Nat) (language : List Nat)
  | Typed (value : List Nat) (datatype : NamedNode)
deriving DecidableEq

/-- Embeds rio_api's `NamedOrBlankNode` (subjects). -/
inductive NamedOrBlankNode where
  | NamedNode (nn : NamedNode)
  | BlankNode (bn : BlankNode)
deriving DecidableEq

/-- Embeds rio_api's `Term` (objects). -/
inductive Term where
  | NamedNode (nn : NamedNode)
  | BlankNode (bn : BlankNode)
  | Literal (l : Literal)
deriving DecidableEq

/-- Embeds rio_api's `Triple`. -/
structure Triple where
  subject : NamedOrBlankNode
  predicate : NamedNode
  object : Term
deriving DecidableEq

/-- Embeds `skip_whitespace` (ntriples.rs 186-193): consume spaces (32) and
tabs (9) until another byte or end of input is current. -/
def skip_whitespace : List Nat → List Nat
  | [] => []
  | c :: rest => if c = 32 ∨ c = 9 then skip_whitespace rest else c :: rest

/-- Embeds `skip_until_eol` (ntriples.rs 195-207): consume up to and including
the next newline (10); at end of input stop. -/
def skip_until_eol : List Nat → List Nat
  | [] => []
  | c :: rest => if c = 10 then rest else skip_until_eol rest

/-- Modelled from the spec: value of a hexadecimal digit byte, used by the
Unicode code-point escapes. -/
def hexVal (c : Nat) : Option Nat :=
  if 48 ≤ c ∧ c ≤ 57 then some (c - 48)
  else if 65 ≤ c ∧ c ≤ 70 then some (c - 55)
  else if 97 ≤ c ∧ c ≤ 102 then some (c - 87)
  else none

/-- Modelled from the spec (§4.2 step 3): backslash-escape decoding for the
Unicode code-point escapes (`\uXXXX`, `\UXXXXXXXX`) and the standard control
escapes (`\t \b \n \r \f \" \' \\`).  The input is the byte list after the
backslash; the result is the decoded code point and the remaining bytes. -/
def decodeEscape : List Nat → Option (Nat × List Nat)
  | 116 :: r => some (9, r)
  | 98 :: r => some (8, r)
  | 110 :: r => some (10, r)
  | 114 :: r => some (13, r)
  | 102 :: r => some (12, r)
  | 34 :: r => some (34, r)
  | 39 :: r => some (39, r)
  | 92 :: r => some (92, r)
  | 117 :: h1 :: h2 :: h3 :: h4 :: r =>
    match hexVal h1, hexVal h2, hexVal h3, hexVal h4 with
    | some a, some b, some c, some d => some (((a * 16 + b) * 16 + c) * 16 + d, r)
    | _, _, _, _ => none
  | 85 :: h1 :: h2 :: h3 :: h4 :: h5 :: h6 :: h7 :: h8 :: r =>
    match hexVal h1, hexVal h2, hexVal h3, hexVal h4,
          hexVal h5, hexVal h6, hexVal h7, hexVal h8 with
    | some a, some b, some c, some d, some e, some f, some g, some h =>
      some (((((((a * 16 + b) * 16 + c) * 16 + d) * 16 + e) * 16 + f) * 16 + g) * 16 + h, r)
    | _, _, _, _, _, _, _, _ => none
  | _ => none

/-- Modelled from the spec: collect decoded bytes up to the matching unescaped
terminator byte (`>` for identifiers, `"` for quoted strings), decoding each
backslash escape in place; reaching end of input before the terminator is a
syntax error.  The fuel argument is always the length of the byte list, which
bounds the number of steps since each step consumes at least one byte. -/
def takeEscapedUntil (term : Nat) : Nat → List Nat → Except TurtleError (List Nat × List Nat)
  | _, [] => .error .syntaxError
  | 0, _ :: _ => .error .syntaxError
  | fuel + 1, c :: rest =>
    if c = term then .ok ([], rest)
    else if c = 92 then
      match decodeEscape rest with
      | none => .error .syntaxError
      | some (d, r) =>
        match takeEscapedUntil term fuel r with
        | .ok (cs, r2) => .ok (d :: cs, r2)
        | .error e => .error e
    else
      match takeEscapedUntil term fuel rest with
      | .ok (cs, r2) => .ok (c :: cs, r2)
      | .error e => .error e

/-- Modelled from the spec (§4.2 step 3, §6): `<` introduces an identifier
consumed up to the matching unescaped `>`, with backslash-escape decoding; any
other leading byte is a syntax error. -/
def parse_iriref_absolute (s : List Nat) : Except TurtleError (List Nat × List Nat) :=
  if curr s = some 60 then takeEscapedUntil 62 (consume s).length (consume s)
  else .error .syntaxError

/-- Embeds `parse_iriref` (ntriples.rs 209-217): parse an IRI reference and
wrap the decoded buffer as a `NamedNode`. -/
def parse_iriref (s : List Nat) : Except TurtleError (NamedNode × List Nat) :=
  match parse_iriref_absolute s with
  | .ok (buf, s') => .ok (⟨buf⟩, s')
  | .error e => .error e

/-- Modelled from the spec (§4.2 step 3): a blank-node label character; the
spec consumes "while label characters continue", taken here as ASCII letters,
digits, `_` and `-`. -/
def is_label_char (c : Nat) : Bool :=
  decide ((48 ≤ c ∧ c ≤ 57) ∨ (65 ≤ c ∧ c ≤ 90) ∨ (97 ≤ c ∧ c ≤ 122) ∨ c = 95 ∨ c = 45)

/-- Modelled from the spec (§4.2 step 3, §6): `_` introduces a blank-node
label of the form `_:label`, consumed while label characters continue. -/
def parse_blank_node_label (s : List Nat) : Except TurtleError (BlankNode × List Nat) :=
  match s with
  | 95 :: 58 :: rest => .ok (⟨rest.takeWhile is_label_char⟩, rest.dropWhile is_label_char)
  | _ => .error .syntaxError

/-- Modelled from the spec (§4.2 step 5): a quoted literal's string body,
introduced by `"` and consumed up to the matching unescaped `"` with escape
decoding; any other leading byte is a syntax error. -/
def parse_string_literal_quote (s : List Nat) : Except TurtleError (List Nat × List Nat) :=
  if curr s = some 34 then takeEscapedUntil 34 (consume s).length (consume s)
  else .error .syntaxError

/-- Modelled from the spec (§4.2 step 5): a language-tag character (letters,
digits, `-`). -/
def is_langtag_char (c : Nat) : Bool :=
  decide ((48 ≤ c ∧ c ≤ 57) ∨ (65 ≤ c ∧ c ≤ 90) ∨ (97 ≤ c ∧ c ≤ 122) ∨ c = 45)

/-- Modelled from the spec (§4.2 step 5, §6): a language tag, `@` followed by
tag characters. -/
def parse_langtag (s : List Nat) : Except TurtleError (List Nat × List Nat) :=
  if curr s = some 64 then
    .ok ((consume s).takeWhile is_langtag_char, (consume s).dropWhile is_langtag_char)
  else .error .syntaxError

/-- Embeds `parse_literal` (ntriples.rs 154-184): decode the quoted string,
skip whitespace, then dispatch on the current byte: `@` consumes a language
tag, `^` requires a second `^` and then a datatype IRI, anything else yields a
simple literal. -/
def parse_literal (s : List Nat) : Except TurtleError (Literal × List Nat) :=
  match parse_string_literal_quote s with
  | .error e => .error e
  | .ok (value, s1) =>
    let s2 := skip_whitespace s1
    match curr s2 with
    | some 64 =>
      match parse_langtag s2 with
      | .error e => .error e
      | .ok (language, s3) => .ok (.LanguageTaggedString value language, s3)
    | some 94 =>
      let s3 := consume s2
      if curr s3 = some 94 then
        match parse_iriref (skip_whitespace (consume s3)) with
        | .error e => .error e
        | .ok (datatype, s4) => .ok (.Typed value datatype, s4)
      else .error .syntaxError
    | _ => .ok (.Simple value, s2)

/-- Embeds `parse_term` (ntriples.rs 130-141): dispatch on the current byte
(`<` identifier, `_` blank node, `"` literal, anything else a syntax error). -/
def parse_term (s : List Nat) : Except TurtleError (Term × List Nat) :=
  match curr s with
  | some 60 =>
    match parse_iriref s with
    | .ok (nn, s') => .ok (.NamedNode nn, s')
    | .error e => .error e
  | some 95 =>
    match parse_blank_node_label s with
    | .ok (bn, s') => .ok (.BlankNode bn, s')
    | .error e => .error e
  | some 34 =>
    match parse_literal s with
    | .ok (l, s') => .ok (.Literal l, s')
    | .error e => .error e
  | _ => .error .syntaxError

/-- Embeds `parse_named_or_blank_node` (ntriples.rs 143-152). -/
def parse_named_or_blank_node (s : List Nat) : Except TurtleError (NamedOrBlankNode × List Nat) :=
  match curr s with
  | some 60 =>
    match parse_iriref s with
    | .ok (nn, s') => .ok (.NamedNode nn, s')
    | .error e => .error e
  | some 95 =>
    match parse_blank_node_label s with
    | .ok (bn, s') => .ok (.BlankNode bn, s')
    | .error e => .error e
  | _ => .error .syntaxError

/-- True when the current byte is the end-of-input sentinel, `#`, carriage
return or newline (the `EOF | b'#' | b'\r' | b'\n'` arms of ntriples.rs). -/
def isCommentOrEol : Option Nat → Bool
  | none => true
  | some c => decide (c = 35 ∨ c = 13 ∨ c = 10)

/-- Embeds the trailing-content check of `parse_line` (ntriples.rs 117-121):
after the statement terminator, skip whitespace and require the rest of the
line to be empty, a comment or end of input (consuming through end of line);
any other byte is a syntax error. -/
def parse_line_end (s : List Nat) : Except TurtleError (List Nat) :=
  let s1 := skip_whitespace s
  if isCommentOrEol (curr s1) then .ok (skip_until_eol s1)
  else .error .syntaxError

/-- Embeds `parse_line` (ntriples.rs 88-128): one parse step over a line.
Returns `none` for blank and comment lines, a triple for statement lines, and
a syntax error otherwise.  The `.`-terminator check embeds
`check_is_current(b'.')` followed by `consume()` (ntriples.rs 114-115). -/
def parse_line (s : List Nat) : Except TurtleError (Option Triple × List Nat) :=
  let s0 := skip_whitespace s
  if isCommentOrEol (curr s0) then
    .ok (none, skip_until_eol s0)
  else
    match parse_named_or_blank_node s0 with
    | .error e => .error e
    | .ok (subject, s1) =>
      match parse_iriref (skip_whitespace s1) with
      | .error e => .error e
      | .ok (predicate, s2) =>
        match parse_term (skip_whitespace s2) with
        | .error e => .error e
        | .ok (object, s3) =>
          let s4 := skip_whitespace s3
          if curr s4 = some 46 then
            match parse_line_end (consume s4) with
            | .error e => .error e
            | .ok s5 => .ok (some ⟨subject, predicate, object⟩, s5)
          else .error .syntaxError

/-- Bytes of an ASCII string, for concrete inputs. -/
def bytesOf (s : String) : List Nat := s.toList.map Char.toNat

/-- True when an `Except` computation succeeded. -/
def isOkE {ε α : Type} : Except ε α → Bool
  | .ok _ => true
  | .error _ => false

/-- Shape tests for `Literal`. -/
def Literal.isSimple : Literal → Bool
  | .Simple _ => true
  | _ => false

def Literal.isLanguageTagged : Literal → Bool
  | .LanguageTaggedString _ _ => true
  | _ => false

def Literal.isTyped : Literal → Bool
  | .Typed _ _ => true
  | _ => false

end RioNt

namespace RioXml

/-- Modelled from the spec (§4.3, XML name classifier consumed as a given):
a name *start* character — letters, `_`, and `:` (the split algorithm itself
always excludes `:` explicitly). -/
def is_name_start_char (c : Char) : Bool := c.isAlpha || c == '_' || c == ':'

/-- Modelled from the spec (§4.3): a name continuation character — name start
characters plus digits, `-` and `.`. -/
def is_name_char (c : Char) : Bool := is_name_start_char c || c.isDigit || c == '-' || c == '.'

/-- Index of the right-most character satisfying `p` (Rust's `str::rfind` with
a character predicate, at character granularity). -/
def rfindIdx (p : Char → Bool) : List Char → Option Nat
  | [] => none
  | c :: rest =>
    match rfindIdx p rest with
    | some i => some (i + 1)
    | none => if p c then some 0 else none

/-- Index of the left-most character satisfying `p` (Rust's `str::find` with a
character predicate). -/
def findIdxFwd (p : Char → Bool) : List Char → Option Nat
  | [] => none
  | c :: rest => if p c then some 0 else (findIdxFwd p rest).map (· + 1)

/-- Embeds `split_iri` (abbrev_formatter.rs 358-373): find the right-most
character that is not a name character or is `:`; from there the first name
start character other than `:` begins the local part; in both failure cases
the whole string is the namespace and the local part is empty. -/
def split_iri (iri : String) : String × String :=
  let l := iri.toList
  match rfindIdx (fun c => !is_name_char c || c == ':') l with
  | none => (iri, "")
  | some b =>
    match findIdxFwd (fun c => is_name_start_char c && c != ':') (l.drop b) with
    | none => (iri, "")
    | some a => ((l.take (b + a)).asString, (l.drop (b + a)).asString)

/-- Embeds `AsRefNamedNode<String>` (abbrev_formatter.rs 9-12). -/
structure AsRefNamedNode where
  iri : String
deriving DecidableEq

/-- Embeds `AsRefBlankNode<String>` (abbrev_formatter.rs 22-25). -/
structure AsRefBlankNode where
  id : String
deriving DecidableEq

/-- Embeds `AsRefLiteral<String>` (abbrev_formatter.rs 33-46). -/
inductive AsRefLiteral where
  | Simple (value : String)
  | LanguageTaggedString (value language : String)
  | Typed (value : String) (datatype : AsRefNamedNode)
deriving DecidableEq

/-- Embeds `AsRefNamedOrBlankNode<String>` (abbrev_formatter.rs 67-71). -/
inductive AsRefNamedOrBlankNode where
  | NamedNode (nn : AsRefNamedNode)
  | BlankNode (bn : AsRefBlankNode)
deriving DecidableEq

/-- Embeds `AsRefTerm<String>` (abbrev_formatter.rs 84-89). -/
inductive AsRefTerm where
  | NamedNode (nn : AsRefNamedNode)
  | BlankNode (bn : AsRefBlankNode)
  | Literal (l : AsRefLiteral)
deriving DecidableEq

/-- Embeds `AsRefTriple<String>` (abbrev_formatter.rs 104-109). -/
structure AsRefTriple where
  subject : AsRefNamedOrBlankNode
  predicate : AsRefNamedNode
  object : AsRefTerm
deriving DecidableEq

/-- Embeds `AbbrevRdfXmlFormatterConfig` (abbrev_formatter.rs 121-127).  The
`prefix` hash map from namespace to short name is embedded as the association
list `prefixes` (iteration and lookup follow list order). -/
structure AbbrevRdfXmlFormatterConfig where
  bnode_contract : Bool
  indentation : Nat
  prefixes : List (String × String)
  typed_node : Bool
deriving DecidableEq

/-- Embeds quick_xml's `BytesStart`: a tag name plus its pushed attributes in
push order. -/
structure BytesStart where
  name : String
  attrs : List (String × String)
deriving DecidableEq

/-- Embeds `BytesStart::push_attribute`. -/
def BytesStart.push_attribute (bs : BytesStart) (kv : String × String) : BytesStart :=
  { bs with attrs := bs.attrs ++ [kv] }

/-- Embeds the quick_xml events the formatter emits.  The underlying writer is
treated as a primitive tag sink (spec §1), so the serializer's output is the
list of events it hands to the writer. -/
inductive Event where
  | Decl
  | Start (bs : BytesStart)
  | Empty (bs : BytesStart)
  | End (name : String)
  | Text (s : String)
deriving DecidableEq

/-- Errors the embedded formatter can produce.  `closeNoClose` is the
`io::Error` built at abbrev_formatter.rs 214-216 ("close when no close is
available"); the I/O failures of the real writer have no counterpart in the
pure event sink. -/
inductive FmtError where
  | closeNoClose
deriving DecidableEq

/-- The RDF namespace inserted by `new` (abbrev_formatter.rs 159-160). -/
def rdf_ns : String := "http://www.w3.org/1999/02/22-rdf-syntax-ns#"

/-- The RDF type predicate tested in `format` (abbrev_formatter.rs 256). -/
def rdf_type_iri : String := "http://www.w3.org/1999/02/22-rdf-syntax-ns#type"

/-- HashMap `get` over the association-list embedding of the namespace map. -/
def lookupMapping : List (String × String) → String → Option String
  | [], _ => none
  | (k0, v0) :: rest, k => if k0 = k then some v0 else lookupMapping rest k

/-- HashMap `insert` over the association-list embedding: replace the value of
an existing key, otherwise append the binding. -/
def insertMapping : List (String × String) → String → String → List (String × String)
  | [], k, v => [(k, v)]
  | (k0, v0) :: rest, k, v =>
    if k0 = k then (k, v) :: rest else (k0, v0) :: insertMapping rest k v

/-- Embeds `AbbrevRdfXmlFormatter`'s state (abbrev_formatter.rs 145-151):
the written events stand in for the `Writer`, and the `current_subject` and
`current_close` vectors are lists whose head is the vector's last element. -/
structure Fmt where
  out : List Event
  config : AbbrevRdfXmlFormatterConfig
  current_subject : List AsRefNamedOrBlankNode
  current_close : List String
  maybe_empty_open : Option BytesStart
deriving DecidableEq

/-- Embeds `bytes_for_iri` (abbrev_formatter.rs 192-211): split the IRI, and
either abbreviate with a registered short name (`Tag::Namespaced`) or emit the
local part with an `xmlns` attribute (`Tag::Unnamedspaced`). -/
def bytes_for_iri (cfg : AbbrevRdfXmlFormatterConfig) (iri : String) : BytesStart :=
  let ns_local := split_iri iri
  match lookupMapping cfg.prefixes ns_local.1 with
  | some p => { name := p ++ ":" ++ ns_local.2, attrs := [] }
  | none => BytesStart.push_attribute { name := ns_local.2, attrs := [] } ("xmlns", ns_local.1)

/-- Embeds `write_event` (abbrev_formatter.rs 237-245): flush any pending open
as a genuine start tag, then write the event. -/
def write_event (st : Fmt) (e : Event) : Fmt :=
  match st.maybe_empty_open with
  | some bs => { st with maybe_empty_open := none, out := st.out ++ [Event.Start bs, e] }
  | none => { st with out := st.out ++ [e] }

/-- Embeds `write_start` (abbrev_formatter.rs 225-234): record the tag name on
the close stack and hold the start tag as the pending open.  The Rust function
takes an `Event` and panics unless it is a start event; the embedding takes
the start tag directly, matching every call site. -/
def write_start (st : Fmt) (bs : BytesStart) : Fmt :=
  { st with current_close := bs.name :: st.current_close, maybe_empty_open := some bs }

/-- Embeds `write_close` (abbrev_formatter.rs 213-223): pop a name from the
close stack (an error when empty); a pending open collapses to an empty tag,
otherwise an end tag is written. -/
def write_close (st : Fmt) : Except FmtError Fmt :=
  match st.current_close with
  | [] => .error .closeNoClose
  | c :: rest =>
    match st.maybe_empty_open with
    | some e =>
      .ok (write_event { st with current_close := rest, maybe_empty_open := none } (Event.Empty e))
    | none => .ok (write_event { st with current_close := rest } (Event.End c))

/-- Embeds `write_prefix` (abbrev_formatter.rs 182-190): push one
`xmlns:short` attribute per registered namespace onto the root open tag (the
hash-map iteration order is embedded as list order). -/
def write_ns_decls (cfg : AbbrevRdfXmlFormatterConfig) (rdf_open : BytesStart) : BytesStart :=
  cfg.prefixes.foldl (fun bs kv => bs.push_attribute ("xmlns:" ++ kv.2, kv.1)) rdf_open

/-- Embeds `write_declaration` (abbrev_formatter.rs 172-180): write the XML
declaration and the `rdf:RDF` root open tag carrying the namespace
declarations. -/
def write_declaration (st : Fmt) : Fmt :=
  let st1 := write_event st Event.Decl
  let rdf_open := write_ns_decls st1.config { name := "rdf:RDF", attrs := [] }
  write_event st1 (Event.Start rdf_open)

/-- Embeds `new` (abbrev_formatter.rs 158-170): bind the RDF namespace to
`rdf` in the configuration, start from empty state and write the document
head. -/
def new (cfg : AbbrevRdfXmlFormatterConfig) : Fmt :=
  let cfg1 := { cfg with prefixes := insertMapping cfg.prefixes rdf_ns "rdf" }
  write_declaration
    { out := [], config := cfg1, current_subject := [], current_close := [],
      maybe_empty_open := none }

/-- Embeds `format_normal` (abbrev_formatter.rs 282-335): open an
`rdf:Description` wrapper on subject change, then emit the property element:
resource and node objects become an empty element with an identity attribute,
literal objects a started element followed by their text; finally the subject
is pushed. -/
def format_normal (st : Fmt) (t : AsRefTriple) : Except FmtError Fmt :=
  let property_open := bytes_for_iri st.config t.predicate.iri
  let last_subject := st.current_subject.head?
  let st1 :=
    if last_subject ≠ some t.subject then
      let description_open : BytesStart := { name := "rdf:Description", attrs := [] }
      let description_open :=
        match t.subject with
        | .NamedNode n => description_open.push_attribute ("rdf:about", n.iri)
        | .BlankNode n => description_open.push_attribute ("rdf:nodeID", n.id)
      write_start st description_open
    else st
  let oc :=
    match t.object with
    | .NamedNode n => (property_open.push_attribute ("rdf:resource", n.iri), none)
    | .BlankNode n => (property_open.push_attribute ("rdf:nodeID", n.id), none)
    | .Literal (.Simple value) => (property_open, some value)
    | .Literal (.LanguageTaggedString value language) =>
      (property_open.push_attribute ("xml:lang", language), some value)
    | .Literal (.Typed value datatype) =>
      (property_open.push_attribute ("rdf:datatype", datatype.iri), some value)
  let st2 :=
    match oc.2 with
    | some content => write_event (write_start st1 oc.1) (Event.Text content)
    | none => write_event st1 (Event.Empty oc.1)
  .ok { st2 with current_subject := t.subject :: st2.current_subject }

/-- Embeds the body of `format` after the subject-change close
(abbrev_formatter.rs 256-278): an `rdf:type` triple opens a type-named element
for a named-node object and is dropped for any other object; every other
predicate falls through to `format_normal`. -/
def format_rest (st1 : Fmt) (t : AsRefTriple) : Except FmtError Fmt :=
  if t.predicate.iri = rdf_type_iri then
    match t.object with
    | .NamedNode nn =>
      let opn := bytes_for_iri st1.config nn.iri
      let st2 := { st1 with current_subject := t.subject :: st1.current_subject }
      let opn :=
        match t.subject with
        | .NamedNode n => opn.push_attribute ("rdf:about", n.iri)
        | .BlankNode n => opn.push_attribute ("rdf:nodeID", n.id)
      .ok (write_start st2 opn)
    | _ => .ok st1
  else format_normal st1 t

/-- Embeds `format` (abbrev_formatter.rs 247-279): close the previous
subject's element when the subject changed and an element is open
(abbrev_formatter.rs 248-254), then continue with `format_rest`. -/
def format (st : Fmt) (t : AsRefTriple) : Except FmtError Fmt :=
  let last_subject := st.current_subject.head?
  match (if last_subject ≠ some t.subject ∧ last_subject.isSome then write_close st
         else .ok st) with
  | .error e => .error e
  | .ok st1 => format_rest st1 t

/-- Embeds the drain loop of `finish` (abbrev_formatter.rs 338-346): pop and
write closes while the close stack is non-empty, then write the root end tag.
The fuel is the close-stack length, which is exactly the number of loop
iterations since every successful `write_close` pops one entry. -/
def finishGo : Nat → Fmt → Except FmtError Fmt
  | 0, st => .ok (write_event st (Event.End "rdf:RDF"))
  | n + 1, st =>
    match st.current_close with
    | [] => .ok (write_event st (Event.End "rdf:RDF"))
    | _ :: _ =>
      match write_close st with
      | .ok st' => finishGo n st'
      | .error e => .error e

/-- Embeds `finish` (abbrev_formatter.rs 338-346). -/
def finish (st : Fmt) : Except FmtError Fmt := finishGo st.current_close.length st

/-- Drives `format` over a triple sequence, as `TripleFormatter` users do. -/
def formatAll (st : Fmt) : List AsRefTriple → Except FmtError Fmt
  | [] => .ok st
  | t :: ts =>
    match format st t with
    | .ok st' => formatAll st' ts
    | .error e => .error e

/-- Whole-run output: build the formatter, format every triple, finish, and
return the event stream handed to the writer. -/
def serialize (cfg : AbbrevRdfXmlFormatterConfig) (ts : List AsRefTriple) :
    Except FmtError (List Event) :=
  match formatAll (new cfg) ts with
  | .error e => .error e
  | .ok st =>
    match finish st with
    | .error e => .error e
    | .ok st' => .ok st'.out

/-- Example configuration used by the concrete claims: the prefixes of spec
§8's serializer example. -/
def exCfg : AbbrevRdfXmlFormatterConfig :=
  { bnode_contract := false, indentation := 0,
    prefixes := [("http://schema.org/", "schema")], typed_node := false }

/-- The triple `(ex:foo, rdf:type, schema:Person)` of spec §8. -/
def exTriple1 : AsRefTriple :=
  { subject := .NamedNode ⟨"ex:foo"⟩, predicate := ⟨rdf_type_iri⟩,
    object := .NamedNode ⟨"http://schema.org/Person"⟩ }

/-- The triple `(ex:foo, schema:name, "Foo")` of spec §8. -/
def exTriple2 : AsRefTriple :=
  { subject := .NamedNode ⟨"ex:foo"⟩, predicate := ⟨"http://schema.org/name"⟩,
    object := .Literal (.Simple "Foo") }

/-- The root open tag produced for `exCfg`. -/
def exRootStart : BytesStart :=
  { name := "rdf:RDF",
    attrs := [("xmlns:schema", "http://schema.org/"), ("xmlns:rdf", rdf_ns)] }

/-- A type triple whose object is a (simple) literal, for the dropped-triple
claims. -/
def exTypeLit (s v : String) : AsRefTriple :=
  { subject := .NamedNode ⟨s⟩, predicate := ⟨rdf_type_iri⟩,
    object := .Literal (.Simple v) }

/-- Replace the `typed_node` and `bnode_contract` configuration flags of a
formatter state, leaving everything else alone; two formatter runs whose
configurations differ only in these two fields stay related by `setTB`
throughout. -/
def setTB (st : Fmt) (b1 b2 : Bool) : Fmt :=
  { st with config := { st.config with typed_node := b1, bnode_contract := b2 } }

/-- A second configuration differing from `exCfg` only in the `typed_node`
and `bnode_contract` flags. -/
def exCfgFlags : AbbrevRdfXmlFormatterConfig :=
  { bnode_contract := true, indentation := 0,
    prefixes := [("http://schema.org/", "schema")], typed_node := true }

end RioXml

/-! ## Helper lemmas -/

namespace RioNt

theorem skip_until_eol_eq (s : List Nat) :
    skip_until_eol s = (s.dropWhile (fun b => b != 10)).tail := by
  induction s with
  | nil => rfl
  | cons c rest ih =>
    by_cases h : c = 10
    · subst h; simp [skip_until_eol, List.dropWhile_cons]
    · simp [skip_until_eol, List.dropWhile_cons, h, ih]

theorem parse_iriref_err (s : List Nat) (h : curr s ≠ some 60) :
    parse_iriref s = .error .syntaxError := by
  simp [parse_iriref, parse_iriref_absolute, h]

end RioNt

namespace RioXml

theorem rfindIdx_eq_none (p : Char → Bool) (l : List Char) (h : ∀ c ∈ l, p c = false) :
    rfindIdx p l = none := by
  induction l with
  | nil => rfl
  | cons c rest ih =>
    have hc := h c (by simp)
    have hrest := ih (fun x hx => h x (by simp [hx]))
    simp [rfindIdx, hrest, hc]

theorem findIdxFwd_eq_none (p : Char → Bool) (l : List Char) (h : ∀ c ∈ l, p c = false) :
    findIdxFwd p l = none := by
  induction l with
  | nil => rfl
  | cons c rest ih =>
    have hc := h c (by simp)
    have hrest := ih (fun x hx => h x (by simp [hx]))
    simp [findIdxFwd, hrest, hc]

end RioXml

/-! ## Claims about the N-Triples parser -/

namespace RioNt

/-- Claim C4: for every input line whose first non-space/tab byte is
end-of-input, `#`, carriage return or newline, a parse step consumes through
the end of that line (including the newline when present — the remaining input
is everything after the first newline), produces no triple, and does not
fail. -/
theorem c4_blank_or_comment_line (s : List Nat)
    (h : isCommentOrEol (curr (skip_whitespace s)) = true) :
    parse_line s = .ok (none, skip_until_eol (skip_whitespace s)) ∧
    skip_until_eol (skip_whitespace s) =
      ((skip_whitespace s).dropWhile (fun b => b != 10)).tail := by
  refine ⟨?_, skip_until_eol_eq _⟩
  simp [parse_line, h]

/-- Witness for C4 at the concrete comment line `# c` followed by another
line. -/
theorem c4_blank_or_comment_line_w :
    isCommentOrEol (curr (skip_whitespace (bytesOf "  # c\n<x>"))) = true ∧
    (parse_line (bytesOf "  # c\n<x>") =
        .ok (none, skip_until_eol (skip_whitespace (bytesOf "  # c\n<x>"))) ∧
      skip_until_eol (skip_whitespace (bytesOf "  # c\n<x>")) =
        (((skip_whitespace (bytesOf "  # c\n<x>"))).dropWhile (fun b => b != 10)).tail) :=
  ⟨by decide, c4_blank_or_comment_line (bytesOf "  # c\n<x>") (by decide)⟩

/-- Claim C5: a line whose predicate position does not begin with `<` fails
with a syntax error even when the subject is valid; a predicate is only ever
parsed as an IRI reference. -/
theorem c5_predicate_must_be_iriref (s s1 : List Nat) (subject : NamedOrBlankNode)
    (h1 : isCommentOrEol (curr (skip_whitespace s)) = false)
    (h2 : parse_named_or_blank_node (skip_whitespace s) = .ok (subject, s1))
    (h3 : curr (skip_whitespace s1) ≠ some 60) :
    parse_line s = .error .syntaxError := by
  simp [parse_line, h1, h2, parse_iriref_err _ h3]

/-- Witness for C5 at the concrete line `<a:b> _:p <c:d> .` whose predicate
position holds a blank-node label. -/
theorem c5_predicate_must_be_iriref_w :
    isCommentOrEol (curr (skip_whitespace (bytesOf "<a:b> _:p <c:d> ."))) = false ∧
    parse_named_or_blank_node (skip_whitespace (bytesOf "<a:b> _:p <c:d> .")) =
      .ok (.NamedNode ⟨bytesOf "a:b"⟩, bytesOf " _:p <c:d> .") ∧
    curr (skip_whitespace (bytesOf " _:p <c:d> .")) ≠ some 60 ∧
    parse_line (bytesOf "<a:b> _:p <c:d> .") = .error .syntaxError :=
  ⟨by decide, by decide, by decide,
    c5_predicate_must_be_iriref (bytesOf "<a:b> _:p <c:d> .") (bytesOf " _:p <c:d> .")
      (.NamedNode ⟨bytesOf "a:b"⟩) (by decide) (by decide) (by decide)⟩

/-- Claim C6: after the `.` statement terminator is consumed and whitespace
skipped, the line check succeeds exactly when the current byte is
end-of-input, `#`, carriage return or newline; a second statement or trailing
garbage on the same line is a syntax error, while a trailing comment or
nothing is accepted. -/
theorem c6_trailing_after_terminator :
    (∀ s : List Nat, isOkE (parse_line_end s) = isCommentOrEol (curr (skip_whitespace s))) ∧
    parse_line (bytesOf "<a:b> <c:d> <e:f> . <a:b> <c:d> <e:f> .") = .error .syntaxError ∧
    parse_line (bytesOf "<a:b> <c:d> <e:f> . x") = .error .syntaxError ∧
    isOkE (parse_line (bytesOf "<a:b> <c:d> <e:f> .")) = true ∧
    isOkE (parse_line (bytesOf "<a:b> <c:d> <e:f> . # trailing comment")) = true := by
  refine ⟨?_, by decide, by decide, by decide, by decide⟩
  intro s
  by_cases h : isCommentOrEol (curr (skip_whitespace s)) = true
  · simp [parse_line_end, h, isOkE]
  · simp only [Bool.not_eq_true] at h
    simp [parse_line_end, h, isOkE]

/-- Claim C7: a literal produced by the grammar is exactly one of simple,
language-tagged or typed; a literal carrying both a language tag and a
datatype annotation is never produced, and a line attempting both markers is
rejected while each single marker is accepted. -/
theorem c7_literal_exactly_one_shape :
    (∀ (s s' : List Nat) (l : Literal), parse_literal s = .ok (l, s') →
       (Literal.isSimple l).toNat + (Literal.isLanguageTagged l).toNat +
         (Literal.isTyped l).toNat = 1) ∧
    parse_line (bytesOf "<a:b> <c:d> \"v\"@en^^<d:f> .") = .error .syntaxError ∧
    parse_line (bytesOf "<a:b> <c:d> \"v\"^^<d:f>@en .") = .error .syntaxError ∧
    isOkE (parse_line (bytesOf "<a:b> <c:d> \"v\"@en .")) = true ∧
    isOkE (parse_line (bytesOf "<a:b> <c:d> \"v\"^^<d:f> .")) = true := by
  refine ⟨?_, by decide, by decide, by decide, by decide⟩
  intro s s' l _
  cases l <;> simp [Literal.isSimple, Literal.isLanguageTagged, Literal.isTyped]

/-- Witness for C7 at the concrete literal `"v"`. -/
theorem c7_literal_exactly_one_shape_w :
    parse_literal (bytesOf "\"v\"") = .ok (.Simple (bytesOf "v"), []) ∧
    (Literal.isSimple (Literal.Simple (bytesOf "v"))).toNat +
      (Literal.isLanguageTagged (Literal.Simple (bytesOf "v"))).toNat +
      (Literal.isTyped (Literal.Simple (bytesOf "v"))).toNat = 1 :=
  ⟨by decide, c7_literal_exactly_one_shape.1 (bytesOf "\"v\"") [] _ (by decide)⟩

end RioNt

/-! ## Claims about the RDF/XML serializer -/

namespace RioXml

/-- Claim C3: `split_iri` splits `http://schema.org/Person` into the
namespace `http://schema.org/` and local part `Person`; a string all of whose
characters are name characters other than `:` is returned whole with an empty
local part, and so is a string in which no name-start character other than
`:` follows the right-most non-name-or-`:` character. -/
theorem c3_split_iri_behaviour :
    split_iri "http://schema.org/Person" = ("http://schema.org/", "Person") ∧
    (∀ s : String, (∀ c ∈ s.toList, is_name_char c = true ∧ c ≠ ':') →
       split_iri s = (s, "")) ∧
    (∀ (s : String) (b : Nat),
       rfindIdx (fun c => !is_name_char c || c == ':') s.toList = some b →
       (∀ c ∈ s.toList.drop b, (is_name_start_char c && c != ':') = false) →
       split_iri s = (s, "")) := by
  refine ⟨by decide, ?_, ?_⟩
  · intro s h
    have hnone : rfindIdx (fun c => !is_name_char c || c == ':') s.data = none := by
      apply rfindIdx_eq_none
      intro c hc
      obtain ⟨h1, h2⟩ := h c hc
      simp [h1, h2]
    simp [split_iri, hnone]
  · intro s b hb h
    have hb' : rfindIdx (fun c => !is_name_char c || c == ':') s.data = some b := hb
    have hnone : findIdxFwd (fun c => is_name_start_char c && c != ':') (s.data.drop b) =
        none := findIdxFwd_eq_none _ _ h
    simp [split_iri, hb', hnone]

/-- Witness for C3: the all-name-characters case at `abc` and the
no-name-start-after case at `ab/`. -/
theorem c3_split_iri_behaviour_w :
    split_iri "abc" = ("abc", "") ∧ split_iri "ab/" = ("ab/", "") :=
  ⟨c3_split_iri_behaviour.2.1 "abc" (by decide),
   c3_split_iri_behaviour.2.2 "ab/" 2 (by decide) (by decide)⟩

/-- Claim C8: invoking the serializer's close operation with an empty close
stack fails with the protocol-violation error and writes nothing. -/
theorem c8_close_with_empty_stack (st : Fmt) (h : st.current_close = []) :
    write_close st = .error FmtError.closeNoClose := by
  simp [write_close, h]

/-- Witness for C8 at a freshly built formatter, whose close stack is
empty. -/
theorem c8_close_with_empty_stack_w :
    (new exCfg).current_close = [] ∧
    write_close (new exCfg) = .error FmtError.closeNoClose :=
  ⟨by decide, c8_close_with_empty_stack (new exCfg) (by decide)⟩

/-- Claim C1 (the code evaluated at the claimed input): formatting
`(ex:foo, rdf:type, schema:Person)` and `(ex:foo, schema:name, "Foo")` with
the prefix map `{http://schema.org/ → schema}` and finishing does NOT produce
the well-formed `<schema:Person rdf:about="ex:foo">…</schema:Person>` element
the claim states: the pending `schema:Person` start tag is overwritten by
`write_start` before ever being flushed, so the event stream contains the
`schema:name` element and an unmatched `schema:Person` end tag, but no
`schema:Person` start tag. -/
theorem c1_two_triples_event_stream :
    serialize exCfg [exTriple1, exTriple2] =
      .ok [Event.Decl, Event.Start exRootStart,
           Event.Start { name := "schema:name", attrs := [] },
           Event.Text "Foo",
           Event.End "schema:name",
           Event.End "schema:Person",
           Event.End "rdf:RDF"] := by decide

/-- Claim C2 (the code evaluated at the failing input): after the type triple
the `schema:Person` open tag is pending and unflushed; formatting the
follow-up literal triple records and flushes a NEW open tag (`schema:name`
appears in the output) while the pending `schema:Person` open was never
flushed (no `schema:Person` start event is ever written), and the close stack
ends up holding both names though only one start tag was emitted. -/
theorem c2_pending_open_overwritten :
    ∃ st1 st2 : Fmt,
      format (new exCfg) exTriple1 = .ok st1 ∧
      format st1 exTriple2 = .ok st2 ∧
      st1.maybe_empty_open =
        some { name := "schema:Person", attrs := [("rdf:about", "ex:foo")] } ∧
      st1.out = [Event.Decl, Event.Start exRootStart] ∧
      st2.maybe_empty_open = none ∧
      st2.out = [Event.Decl, Event.Start exRootStart,
                 Event.Start { name := "schema:name", attrs := [] }, Event.Text "Foo"] ∧
      st2.current_close = ["schema:name", "schema:Person"] := by
  refine ⟨_, _, rfl, rfl, ?_, ?_, ?_, ?_, ?_⟩ <;> decide

/-- Claim C10 (counterexample): a type triple with a literal object does not
always make `format` return success — after a type triple for one subject and
a dropped type-literal triple for a second subject, a type-literal triple for
a third subject makes `format` fail with the protocol-violation error,
because the subject-change close finds an empty close stack. -/
theorem c10_counterexample :
    (exTypeLit "ex:c" "y").predicate.iri = rdf_type_iri ∧
    (match format (new exCfg) exTriple1 with
     | .ok st =>
       match format st (exTypeLit "ex:b" "x") with
       | .ok st2 => format st2 (exTypeLit "ex:c" "y")
       | .error e => .error e
     | .error e => .error e) = .error FmtError.closeNoClose :=
  ⟨rfl, by decide⟩

/-- Claim C10 (amended): for every triple whose predicate is the RDF type IRI
and whose object is a literal or a blank node, `format` performs only the
subject-change close: when the subject is unchanged or no subject has been
recorded it returns the state unchanged (nothing written, no element opened,
no close-stack or subject entry recorded); when the subject changed it
returns exactly the result of the close operation, which fails when the close
stack is empty. -/
theorem c10_type_triple_dropped (st : Fmt) (t : AsRefTriple)
    (h1 : t.predicate.iri = rdf_type_iri)
    (h2 : ∀ nn, t.object ≠ AsRefTerm.NamedNode nn) :
    format st t =
      if st.current_subject.head? ≠ some t.subject ∧ (st.current_subject.head?).isSome then
        write_close st
      else .ok st := by
  have hrest : ∀ st1, format_rest st1 t = .ok st1 := by
    intro st1
    rw [format_rest, if_pos h1]
    cases ho : t.object with
    | NamedNode nn => exact absurd ho (h2 nn)
    | BlankNode bn => rfl
    | Literal l => rfl
  rw [format]
  by_cases hc : st.current_subject.head? ≠ some t.subject ∧ (st.current_subject.head?).isSome
  · rw [if_pos hc]
    cases hw : write_close st with
    | error e => rfl
    | ok st1 => exact hrest st1
  · rw [if_neg hc]
    exact hrest st

/-- Witness for the amended C10 at a fresh formatter and a type triple with a
literal object: the state is returned unchanged. -/
theorem c10_type_triple_dropped_w :
    format (new exCfg) (exTypeLit "ex:a" "x") = .ok (new exCfg) := by
  have h := c10_type_triple_dropped (new exCfg) (exTypeLit "ex:a" "x") rfl
    (fun nn hx => by simp [exTypeLit] at hx)
  rw [h]
  decide

end RioXml

/-! ## Configuration-flag independence (claim C9) -/

namespace RioXml

theorem bytes_for_iri_setTB (c : AbbrevRdfXmlFormatterConfig) (b1 b2 : Bool) (iri : String) :
    bytes_for_iri { c with typed_node := b1, bnode_contract := b2 } iri =
      bytes_for_iri c iri := rfl

theorem write_event_setTB (st : Fmt) (b1 b2 : Bool) (e : Event) :
    write_event (setTB st b1 b2) e = setTB (write_event st e) b1 b2 := by
  obtain ⟨o, cfg, cs, cc, mo⟩ := st
  cases mo <;> rfl

theorem write_start_setTB (st : Fmt) (b1 b2 : Bool) (bs : BytesStart) :
    write_start (setTB st b1 b2) bs = setTB (write_start st bs) b1 b2 := rfl

theorem write_close_setTB (st : Fmt) (b1 b2 : Bool) :
    write_close (setTB st b1 b2) = (write_close st).map (setTB · b1 b2) := by
  obtain ⟨o, cfg, cs, cc, mo⟩ := st
  cases cc <;> cases mo <;> rfl

theorem format_normal_setTB (st : Fmt) (b1 b2 : Bool) (t : AsRefTriple) :
    format_normal (setTB st b1 b2) t = (format_normal st t).map (setTB · b1 b2) := by
  obtain ⟨o, cfg, cs, cc, mo⟩ := st
  obtain ⟨subj, pred, obj⟩ := t
  by_cases h : cs.head? ≠ some subj <;>
    cases mo <;>
      rcases obj with nn | bn | (v | ⟨v, lg⟩ | ⟨v, dt⟩) <;>
        simp [format_normal, setTB, write_start, write_event, bytes_for_iri, Except.map, h]

theorem format_rest_setTB (st : Fmt) (b1 b2 : Bool) (t : AsRefTriple) :
    format_rest (setTB st b1 b2) t = (format_rest st t).map (setTB · b1 b2) := by
  by_cases hp : t.predicate.iri = rdf_type_iri
  · simp only [format_rest, if_pos hp]
    obtain ⟨o, cfg, cs, cc, mo⟩ := st
    obtain ⟨subj, pred, obj⟩ := t
    cases subj <;> rcases obj with nn | bn | l <;>
      simp [setTB, write_start, bytes_for_iri, Except.map]
  · simp only [format_rest, if_neg hp]
    exact format_normal_setTB st b1 b2 t

theorem format_setTB (st : Fmt) (b1 b2 : Bool) (t : AsRefTriple) :
    format (setTB st b1 b2) t = (format st t).map (setTB · b1 b2) := by
  obtain ⟨o, cfg, cs, cc, mo⟩ := st
  simp only [format, setTB]
  by_cases hc : cs.head? ≠ some t.subject ∧ (cs.head?).isSome
  · simp only [if_pos hc]
    have hw := write_close_setTB ⟨o, cfg, cs, cc, mo⟩ b1 b2
    simp only [setTB] at hw
    rw [hw]
    cases h : write_close (⟨o, cfg, cs, cc, mo⟩ : Fmt) with
    | error e => rfl
    | ok st1 =>
      simp only [Except.map]
      have := format_rest_setTB st1 b1 b2 t
      simpa [setTB] using this
  · simp only [if_neg hc]
    have := format_rest_setTB ⟨o, cfg, cs, cc, mo⟩ b1 b2 t
    simpa [setTB] using this

theorem finishGo_setTB (n : Nat) : ∀ (st : Fmt) (b1 b2 : Bool),
    finishGo n (setTB st b1 b2) = (finishGo n st).map (setTB · b1 b2) := by
  induction n with
  | zero =>
    intro st b1 b2
    simp [finishGo, write_event_setTB, Except.map]
  | succ n ih =>
    intro st b1 b2
    obtain ⟨o, cfg, cs, cc, mo⟩ := st
    simp only [finishGo, setTB]
    cases cc with
    | nil => cases mo <;> simp [write_event, Except.map]
    | cons c rest =>
      have hw := write_close_setTB ⟨o, cfg, cs, c :: rest, mo⟩ b1 b2
      simp only [setTB] at hw
      rw [hw]
      cases h : write_close (⟨o, cfg, cs, c :: rest, mo⟩ : Fmt) with
      | error e => rfl
      | ok st1 =>
        simp only [Except.map]
        have := ih st1 b1 b2
        simpa [setTB] using this

theorem finish_setTB (st : Fmt) (b1 b2 : Bool) :
    finish (setTB st b1 b2) = (finish st).map (setTB · b1 b2) := by
  have h : (setTB st b1 b2).current_close = st.current_close := rfl
  simp only [finish, h]
  exact finishGo_setTB _ st b1 b2

theorem formatAll_setTB (ts : List AsRefTriple) : ∀ (st : Fmt) (b1 b2 : Bool),
    formatAll (setTB st b1 b2) ts = (formatAll st ts).map (setTB · b1 b2) := by
  induction ts with
  | nil => intro st b1 b2; rfl
  | cons t ts ih =>
    intro st b1 b2
    simp only [formatAll]
    rw [format_setTB]
    cases h : format st t with
    | error e => simp [Except.map]
    | ok st1 => simp [Except.map, ih st1 b1 b2]

theorem new_setTB (cfg : AbbrevRdfXmlFormatterConfig) (b1 b2 : Bool) :
    new { cfg with typed_node := b1, bnode_contract := b2 } = setTB (new cfg) b1 b2 := rfl

theorem serialize_setTB (cfg : AbbrevRdfXmlFormatterConfig) (b1 b2 : Bool)
    (ts : List AsRefTriple) :
    serialize { cfg with typed_node := b1, bnode_contract := b2 } ts = serialize cfg ts := by
  simp only [serialize, new_setTB]
  rw [formatAll_setTB]
  cases h : formatAll (new cfg) ts with
  | error e => simp [Except.map]
  | ok st =>
    simp only [Except.map]
    rw [finish_setTB]
    cases h2 : finish st with
    | error e => rfl
    | ok st2 => rfl

/-- Claim C9: two serializer configurations that agree on the namespace map
and the indentation width — i.e. differ at most in the `typed_node` and
`bnode_contract` flags — produce identical event streams for every triple
sequence: the two flags are never consulted. -/
theorem c9_unused_config_flags (c1 c2 : AbbrevRdfXmlFormatterConfig)
    (hp : c1.prefixes = c2.prefixes) (hi : c1.indentation = c2.indentation)
    (ts : List AsRefTriple) :
    serialize c1 ts = serialize c2 ts := by
  obtain ⟨bc1, i1, p1, tn1⟩ := c1
  obtain ⟨bc2, i2, p2, tn2⟩ := c2
  have hp' : p1 = p2 := hp
  have hi' : i1 = i2 := hi
  subst hp' hi'
  simpa using serialize_setTB ⟨bc2, i1, p1, tn2⟩ tn1 bc1 ts

/-- Witness for C9 at two concrete configurations that differ exactly in the
two flags. -/
theorem c9_unused_config_flags_w :
    serialize exCfg [exTriple1, exTriple2] = serialize exCfgFlags [exTriple1, exTriple2] :=
  c9_unused_config_flags exCfg exCfgFlags rfl rfl [exTriple1, exTriple2]

end RioXml
